import Mathlib

/-!
# Verification of NimbusCore (src/core/src/NimbusCore.h)

A shallow embedding of the Nimbus Core debugging/logging macro layer, the
non-retaining collection factories, the emptiness predicates and the path
builders, together with theorems settling the specification's claims.

The macro layer (NIDPRINT, NIDASSERT, NIDCONDITIONLOG, NIDERROR, NIDWARNING,
NIDINFO, NIDPRINTMETHODNAME, the NILOGLEVEL constants) is defined directly in
the header and is embedded from it.  A macro invocation is modelled by a
function taking the build flags (DEBUG, TARGET_IPHONE_SIMULATOR), the host
state it reads (NIMaxLogLevel, NIIsInDebugger) and the argument expressions,
and returning the observable outcome: log lines emitted, argument side effects
performed, whether a debugger trap fired, whether the process terminated.

Functions only declared in the header (the collection factories, the emptiness
predicates, the path builders, the NIMaxLogLevel definition) are modelled from
the specification; each such definition's doc comment says so.
-/

namespace NimbusCore

/-- NimbusCore.h line 83: `#define NILOGLEVEL_INFO 5`. -/
def NILOGLEVEL_INFO : Int := 5

/-- NimbusCore.h line 84: `#define NILOGLEVEL_WARNING 3`. -/
def NILOGLEVEL_WARNING : Int := 3

/-- NimbusCore.h line 85: `#define NILOGLEVEL_ERROR 1`. -/
def NILOGLEVEL_ERROR : Int := 1

/-- The three message severities of the level-based loggers. -/
inductive Severity
  | error
  | warning
  | info
deriving DecidableEq, Repr

/-- The integer rank each severity is given by the NILOGLEVEL constants. -/
def Severity.rank : Severity → Int
  | .error => NILOGLEVEL_ERROR
  | .warning => NILOGLEVEL_WARNING
  | .info => NILOGLEVEL_INFO

/-- A macro expansion site: the enclosing function's name (what the compiler
exposes as `__PRETTY_FUNCTION__`) and the source line (`__LINE__`). -/
structure CallSite where
  func : String
  line : Nat
deriving DecidableEq, Repr

/-- The function-name identifiers the C/Objective-C compiler predefines at a
call site: `__PRETTY_FUNCTION__`, `__FUNCTION__` and `__func__` all denote the
enclosing function's name.  Any other identifier is not predefined. -/
def compilerFunctionIdent (site : CallSite) (name : String) : Option String :=
  if name = "__PRETTY_FUNCTION__" ∨ name = "__FUNCTION__" ∨ name = "__func__"
  then some site.func else none

/-- The identifier NimbusCore.h lines 103 and 111 interpolate for the
call-site function name: the header spells it `__PRENIY_FUNCTION__`, which is
not one of the identifiers the compiler predefines. -/
def NIDPRINTFunctionIdent : String := "__PRENIY_FUNCTION__"

/-- The string an identifier evaluates to at a call site.  An identifier the
compiler does not predefine is modelled as producing its own spelling; in the
concrete C build it is in fact an undeclared-identifier compile error — either
way it never produces the enclosing function's name. -/
def identValue (site : CallSite) (name : String) : String :=
  (compilerFunctionIdent site name).getD name

/-- The log line NIDPRINT's debug expansion emits (NimbusCore.h line 103):
`NSLog` of the format `"%s(%d): " xx` where `%s` is bound to the identifier
`__PRENIY_FUNCTION__` and `%d` to `__LINE__`. -/
def NIDPRINTLine (site : CallSite) (msg : String) : String :=
  identValue site NIDPRINTFunctionIdent ++ "(" ++ toString site.line ++ "): " ++ msg

/-- An argument expression handed to a macro: the value it evaluates to and
the side effects its evaluation performs. -/
structure Arg (α : Type) where
  val : α
  effects : List String
deriving DecidableEq, Repr

/-- The observable outcome of one macro invocation: the log lines written, the
argument side effects that actually ran, whether a debugger breakpoint trap
fired, and whether the process terminated. -/
structure MacroResult where
  output : List String
  effects : List String
  trapped : Bool
  terminated : Bool
deriving DecidableEq, Repr

/-- NimbusCore.h lines 102-106: `NIDPRINT(xx, ...)` expands to an `NSLog` call
when DEBUG is defined and to `((void)0)` otherwise, so in a release build the
arguments are never evaluated. -/
def NIDPRINTRun (debug : Bool) (site : CallSite) (msg : Arg String) : MacroResult :=
  if debug then
    { output := [NIDPRINTLine site msg.val], effects := msg.effects
      trapped := false, terminated := false }
  else
    { output := [], effects := [], trapped := false, terminated := false }

/-- NimbusCore.h line 111: `NIDPRINTMETHODNAME()` is
`NIDPRINT(@"%s", __PRENIY_FUNCTION__)` — the message is the value of the
identifier `__PRENIY_FUNCTION__` formatted with `%s`. -/
def NIDPRINTMETHODNAMERun (debug : Bool) (site : CallSite) : MacroResult :=
  NIDPRINTRun debug site { val := identValue site NIDPRINTFunctionIdent, effects := [] }

/-- NimbusCore.h lines 119-136: `NIDASSERT(xx)`.  With DEBUG defined: evaluate
`xx`; if false, `NIDPRINT(@"NIDASSERT failed: %s", #xx)` (the message embeds
the stringized condition `condText`), and on the simulator target additionally
`__asm__("int $3")` when `NIIsInDebugger()` is true.  Without DEBUG the macro
is `((void)0)`.  No branch terminates the process. -/
def NIDASSERTRun (debug simulator debuggerAttached : Bool) (site : CallSite)
    (cond : Arg Bool) (condText : String) : MacroResult :=
  if debug then
    if cond.val then
      { output := [], effects := cond.effects, trapped := false, terminated := false }
    else
      { output := [NIDPRINTLine site ("NIDASSERT failed: " ++ condText)]
        effects := cond.effects
        trapped := simulator && debuggerAttached
        terminated := false }
  else
    { output := [], effects := [], trapped := false, terminated := false }

/-- NimbusCore.h lines 138-143: `NIDCONDITIONLOG(condition, xx, ...)`.  With
DEBUG defined: evaluate `condition` and, when it is true, `NIDPRINT(xx, ...)`.
Without DEBUG the macro is `((void)0)`. -/
def NIDCONDITIONLOGRun (debug : Bool) (site : CallSite) (condition : Arg Bool)
    (msg : Arg String) : MacroResult :=
  if debug then
    if condition.val then
      let r := NIDPRINTRun debug site msg
      { output := r.output, effects := condition.effects ++ r.effects
        trapped := r.trapped, terminated := r.terminated }
    else
      { output := [], effects := condition.effects, trapped := false, terminated := false }
  else
    { output := [], effects := [], trapped := false, terminated := false }

/-- NimbusCore.h line 156: `NIDERROR(xx, ...)` is
`NIDCONDITIONLOG((NILOGLEVEL_ERROR <= NIMaxLogLevel), xx, ...)`.  Reading the
global `NIMaxLogLevel` has no side effect. -/
def NIDERRORRun (debug : Bool) (NIMaxLogLevel : Int) (site : CallSite)
    (msg : Arg String) : MacroResult :=
  NIDCONDITIONLOGRun debug site
    { val := decide (NILOGLEVEL_ERROR ≤ NIMaxLogLevel), effects := [] } msg

/-- NimbusCore.h lines 161-162: `NIDWARNING(xx, ...)` is
`NIDCONDITIONLOG((NILOGLEVEL_WARNING <= NIMaxLogLevel), xx, ...)`. -/
def NIDWARNINGRun (debug : Bool) (NIMaxLogLevel : Int) (site : CallSite)
    (msg : Arg String) : MacroResult :=
  NIDCONDITIONLOGRun debug site
    { val := decide (NILOGLEVEL_WARNING ≤ NIMaxLogLevel), effects := [] } msg

/-- NimbusCore.h line 167: `NIDINFO(xx, ...)` is
`NIDCONDITIONLOG((NILOGLEVEL_INFO <= NIMaxLogLevel), xx, ...)`. -/
def NIDINFORun (debug : Bool) (NIMaxLogLevel : Int) (site : CallSite)
    (msg : Arg String) : MacroResult :=
  NIDCONDITIONLOGRun debug site
    { val := decide (NILOGLEVEL_INFO ≤ NIMaxLogLevel), effects := [] } msg

/-- Dispatch a level-based logger call by severity: `NIDERROR`, `NIDWARNING`
or `NIDINFO`. -/
def NIDLogRun (S : Severity) (debug : Bool) (NIMaxLogLevel : Int) (site : CallSite)
    (msg : Arg String) : MacroResult :=
  match S with
  | .error => NIDERRORRun debug NIMaxLogLevel site msg
  | .warning => NIDWARNINGRun debug NIMaxLogLevel site msg
  | .info => NIDINFORun debug NIMaxLogLevel site msg

/-- Modelled from the spec: the definition `NSInteger NIMaxLogLevel = ...` lives
in NimbusCore.m, which is absent from src/; the header (NimbusCore.h lines
87-94) declares it `extern` and documents "The default value is
NILOGLEVEL_WARNING" and "This value may be changed at run-time".  The
process-wide mutable state is just this one integer. -/
structure LogState where
  NIMaxLogLevel : Int
deriving DecidableEq, Repr

/-- Modelled from the spec: the value of `NIMaxLogLevel` at process start. -/
def initialLogState : LogState := { NIMaxLogLevel := NILOGLEVEL_WARNING }

/-- Reading the global `NIMaxLogLevel`. -/
def readMaxLogLevel (s : LogState) : Int := s.NIMaxLogLevel

/-- Assigning the global `NIMaxLogLevel`; any integer is accepted, no
validation is performed. -/
def writeMaxLogLevel (_ : LogState) (v : Int) : LogState := { NIMaxLogLevel := v }

/-- The dynamically-typed Objective-C values an `id`-taking function can
receive: nil, an array, a set, a string, a dictionary, a number, or any other
object. -/
inductive ObjCValue
  | nilV
  | array (elems : List ObjCValue)
  | nsset (elems : List ObjCValue)
  | string (text : String)
  | dictionary (entries : List (ObjCValue × ObjCValue))
  | number (n : Int)

/-- Modelled from the spec: `NIIsArrayWithObjects` is only declared in
NimbusCore.h line 239 (its body is in the absent NimbusCore.m); per the spec it
returns false for nil, false for a non-array, false for an empty array, and
true otherwise.  It is a total Lean function, so it never fails. -/
def NIIsArrayWithObjects : ObjCValue → Bool
  | .array elems => decide (0 < elems.length)
  | _ => false

/-- Modelled from the spec: `NIIsSetWithObjects` (declared NimbusCore.h line
244) returns false for nil, false for a non-set, false for an empty set, and
true otherwise. -/
def NIIsSetWithObjects : ObjCValue → Bool
  | .nsset elems => decide (0 < elems.length)
  | _ => false

/-- Modelled from the spec: `NIIsStringWithAnyText` (declared NimbusCore.h
line 249) returns false for nil, false for a non-string, false for a
zero-length string, and true otherwise. -/
def NIIsStringWithAnyText : ObjCValue → Bool
  | .string text => decide (0 < text.length)
  | _ => false

/-- An object identity in the reference-counted heap model. -/
abbrev ObjId := Nat

/-- Modelled from the spec: a reference-counted heap.  `retainCount o` is the
number of owning references to object `o`; the object is alive exactly while
its count is positive, and is destroyed when the count reaches zero. -/
structure Heap where
  retainCount : ObjId → Nat

/-- Whether object `o` is still alive (has at least one owning reference). -/
def Heap.alive (h : Heap) (o : ObjId) : Bool := decide (0 < h.retainCount o)

/-- Taking an owning reference to `o`: increments its retain count. -/
def Heap.retain (h : Heap) (o : ObjId) : Heap :=
  { retainCount := fun x => if x = o then h.retainCount x + 1 else h.retainCount x }

/-- Releasing an owning reference to `o`: decrements its retain count; at zero
the object is destroyed. -/
def Heap.release (h : Heap) (o : ObjId) : Heap :=
  { retainCount := fun x => if x = o then h.retainCount x - 1 else h.retainCount x }

/-- Modelled from the spec: a mutable array together with its element-storage
policy.  A retaining array takes an owning reference to each element it
stores; a non-retaining one stores only a non-owning reference. -/
structure ModelArray where
  retainsElements : Bool
  elems : List ObjId
deriving DecidableEq, Repr

/-- Adding an object to an array: the entry is appended, and the element is
retained exactly when the array's storage policy is retaining. -/
def ModelArray.addObject (a : ModelArray) (h : Heap) (o : ObjId) : ModelArray × Heap :=
  ({ retainsElements := a.retainsElements, elems := a.elems ++ [o] },
   if a.retainsElements then h.retain o else h)

/-- Modelled from the spec: a mutable set with its element-storage policy. -/
structure ModelSet where
  retainsElements : Bool
  elems : List ObjId
deriving DecidableEq, Repr

/-- Adding an object to a set: the entry is stored, and the element is
retained exactly when the set's storage policy is retaining. -/
def ModelSet.addObject (s : ModelSet) (h : Heap) (o : ObjId) : ModelSet × Heap :=
  ({ retainsElements := s.retainsElements
     elems := if o ∈ s.elems then s.elems else s.elems ++ [o] },
   if s.retainsElements then h.retain o else h)

/-- Modelled from the spec: a mutable dictionary with its value-storage
policy (String keys; keys are copied, the policy concerns the stored values). -/
structure ModelDictionary where
  retainsValues : Bool
  entries : List (String × ObjId)
deriving DecidableEq, Repr

/-- Storing a value under a key: the entry is recorded, and the value is
retained exactly when the dictionary's storage policy is retaining. -/
def ModelDictionary.setObjectForKey (d : ModelDictionary) (h : Heap) (o : ObjId)
    (k : String) : ModelDictionary × Heap :=
  ({ retainsValues := d.retainsValues, entries := d.entries ++ [(k, o)] },
   if d.retainsValues then h.retain o else h)

/-- Modelled from the spec: `NICreateNonRetainingArray` (declared NimbusCore.h
line 198, body in the absent NimbusCore.m) returns an empty mutable array that
does not retain the objects it contains. -/
def NICreateNonRetainingArray : ModelArray :=
  { retainsElements := false, elems := [] }

/-- Modelled from the spec: `NICreateNonRetainingDictionary` (declared
NimbusCore.h line 206) returns an empty mutable dictionary that does not
retain its values. -/
def NICreateNonRetainingDictionary : ModelDictionary :=
  { retainsValues := false, entries := [] }

/-- Modelled from the spec: `NICreateNonRetainingSet` (declared NimbusCore.h
line 213) returns an empty mutable set that does not retain its elements. -/
def NICreateNonRetainingSet : ModelSet :=
  { retainsElements := false, elems := [] }

/-- Whether a path string ends with the separator `/`. -/
def hasTrailingSlash (s : String) : Bool := decide (s.data.getLast? = some '/')

/-- Whether a path string starts with the separator `/`. -/
def hasLeadingSlash (s : String) : Bool := decide (s.data.head? = some '/')

/-- The path string with its first character removed. -/
def dropFirstChar (s : String) : String := String.mk (s.data.drop 1)

/-- Modelled from the spec: the separator-normalizing path append both path
builders use (NSString's appendPathComponent behaviour as the spec describes
it): the base and relative paths are concatenated with exactly one `/` at the
join, whether or not the relative path starts with one. -/
def appendPathComponent (base rel : String) : String :=
  if hasTrailingSlash base then
    if hasLeadingSlash rel then base ++ dropFirstChar rel else base ++ rel
  else
    if hasLeadingSlash rel then base ++ rel else base ++ "/" ++ rel

/-- Modelled from the spec: `NIPathForBundleResource` (declared NimbusCore.h
line 350, body in the absent NimbusCore.m) appends the relative path to the
bundle's base path; the bundle is represented by that base path.  Pure string
composition: no existence check, no I/O. -/
def NIPathForBundleResource (bundlePath relativePath : String) : String :=
  appendPathComponent bundlePath relativePath

/-- Modelled from the spec: `NIPathForDocumentsResource` (declared
NimbusCore.h line 356) appends the relative path to the user documents
directory, represented by its base path.  Pure string composition: no
existence check, no I/O. -/
def NIPathForDocumentsResource (documentsPath relativePath : String) : String :=
  appendPathComponent documentsPath relativePath

/-- C6: the severity levels form an ordered enumeration with fixed integer
ranks Error = 1, Warning = 3, Info = 5, ordered Error < Warning < Info, with
the sparse gaps between ranks preserved. -/
theorem severity_ranks_fixed_and_ordered :
    NILOGLEVEL_ERROR = 1 ∧ NILOGLEVEL_WARNING = 3 ∧ NILOGLEVEL_INFO = 5
    ∧ Severity.rank .error = 1 ∧ Severity.rank .warning = 3 ∧ Severity.rank .info = 5
    ∧ Severity.rank .error < Severity.rank .warning
    ∧ Severity.rank .warning < Severity.rank .info
    ∧ Severity.rank .warning - Severity.rank .error = 2
    ∧ Severity.rank .info - Severity.rank .warning = 2 := by
  decide

/-- C1: in a debug build, the level-based logger for severity S emits its
message iff rank(S) ≤ NIMaxLogLevel, for every integer threshold (no
validation restricts the threshold's value — the statement holds for all
`t : Int`, including values strictly between the defined ranks, such as 2);
with the threshold set to Error, Warning and Info calls are suppressed while
Error calls are not. -/
theorem level_log_emits_iff_rank_le_threshold (S : Severity) (t : Int)
    (site : CallSite) (msg : Arg String) :
    ((NIDLogRun S true t site msg).output
        = if S.rank ≤ t then [NIDPRINTLine site msg.val] else [])
    ∧ ((NIDLogRun S true t site msg).output ≠ [] ↔ S.rank ≤ t)
    ∧ ((NIDLogRun S true NILOGLEVEL_ERROR site msg).output
        = if S = .error then [NIDPRINTLine site msg.val] else [])
    ∧ (NIDERRORRun true 2 site msg).output = [NIDPRINTLine site msg.val]
    ∧ (NIDWARNINGRun true 2 site msg).output = []
    ∧ (NIDINFORun true 2 site msg).output = [] := by
  cases S <;>
    simp [NIDLogRun, NIDERRORRun, NIDWARNINGRun, NIDINFORun, NIDCONDITIONLOGRun,
      NIDPRINTRun, Severity.rank, NILOGLEVEL_ERROR, NILOGLEVEL_WARNING,
      NILOGLEVEL_INFO] <;>
    split <;> simp_all

/-- C2: with the DEBUG flag unset, every logging and assertion macro expands
to `((void)0)`: no output is produced, no argument side effect runs, no trap
fires, the process never terminates. -/
theorem release_build_macros_are_silent (site : CallSite) (msg : Arg String)
    (cond : Arg Bool) (condText : String) (simulator dbg : Bool) (t : Int)
    (S : Severity) :
    NIDPRINTRun false site msg = ⟨[], [], false, false⟩
    ∧ NIDPRINTMETHODNAMERun false site = ⟨[], [], false, false⟩
    ∧ NIDASSERTRun false simulator dbg site cond condText = ⟨[], [], false, false⟩
    ∧ NIDCONDITIONLOGRun false site cond msg = ⟨[], [], false, false⟩
    ∧ NIDLogRun S false t site msg = ⟨[], [], false, false⟩ := by
  cases S <;>
    simp [NIDPRINTRun, NIDPRINTMETHODNAMERun, NIDASSERTRun, NIDCONDITIONLOGRun,
      NIDLogRun, NIDERRORRun, NIDWARNINGRun, NIDINFORun]

/-- C3: in a debug build, a failed NIDASSERT emits exactly one diagnostic line
naming the failed condition (NIDASSERT consults no log threshold — its
definition takes no NIMaxLogLevel at all), traps only when a debugger is
attached (trapped = simulator AND debugger-attached, so a trap implies a
debugger is attached), and never terminates the process. -/
theorem assert_failure_logs_once_and_continues (simulator dbg : Bool)
    (site : CallSite) (cond : Arg Bool) (condText : String)
    (hfail : cond.val = false) :
    (NIDASSERTRun true simulator dbg site cond condText).output
        = [NIDPRINTLine site ("NIDASSERT failed: " ++ condText)]
    ∧ (NIDASSERTRun true simulator dbg site cond condText).trapped
        = (simulator && dbg)
    ∧ ((NIDASSERTRun true simulator dbg site cond condText).trapped = true →
        dbg = true)
    ∧ (NIDASSERTRun true simulator dbg site cond condText).terminated = false := by
  refine ⟨?_, ?_, ?_, ?_⟩ <;> simp [NIDASSERTRun, hfail]

/-- Witness for C3 at a concrete failed assertion on the simulator with no
debugger attached. -/
theorem assert_failure_logs_once_and_continues_witness :
    (Arg.mk false ["conditionSideEffect"]).val = false
    ∧ ((NIDASSERTRun true true false ⟨"-[NIExample check]", 57⟩
          (Arg.mk false ["conditionSideEffect"]) "1 == 2").output
        = [NIDPRINTLine ⟨"-[NIExample check]", 57⟩ "NIDASSERT failed: 1 == 2"]
      ∧ (NIDASSERTRun true true false ⟨"-[NIExample check]", 57⟩
          (Arg.mk false ["conditionSideEffect"]) "1 == 2").trapped = (true && false)
      ∧ ((NIDASSERTRun true true false ⟨"-[NIExample check]", 57⟩
          (Arg.mk false ["conditionSideEffect"]) "1 == 2").trapped = true →
          false = true)
      ∧ (NIDASSERTRun true true false ⟨"-[NIExample check]", 57⟩
          (Arg.mk false ["conditionSideEffect"]) "1 == 2").terminated = false) :=
  ⟨rfl, assert_failure_logs_once_and_continues true false
    ⟨"-[NIExample check]", 57⟩ (Arg.mk false ["conditionSideEffect"]) "1 == 2" rfl⟩

/-- C10: in a debug build NIDCONDITIONLOG emits the message iff its condition
is true (its definition consults no NIMaxLogLevel — the output is fully
determined by the condition and the message), and NIDERROR / NIDWARNING /
NIDINFO are exactly NIDCONDITIONLOG applied to the threshold comparison as
the condition. -/
theorem conditionlog_emits_iff_condition (site : CallSite) (cond : Arg Bool)
    (msg : Arg String) (t : Int) :
    ((NIDCONDITIONLOGRun true site cond msg).output
        = if cond.val then [NIDPRINTLine site msg.val] else [])
    ∧ ((NIDCONDITIONLOGRun true site cond msg).output ≠ [] ↔ cond.val = true)
    ∧ NIDERRORRun true t site msg
        = NIDCONDITIONLOGRun true site ⟨decide (NILOGLEVEL_ERROR ≤ t), []⟩ msg
    ∧ NIDWARNINGRun true t site msg
        = NIDCONDITIONLOGRun true site ⟨decide (NILOGLEVEL_WARNING ≤ t), []⟩ msg
    ∧ NIDINFORun true t site msg
        = NIDCONDITIONLOGRun true site ⟨decide (NILOGLEVEL_INFO ≤ t), []⟩ msg := by
  cases hc : cond.val <;>
    simp [NIDCONDITIONLOGRun, NIDPRINTRun, NIDERRORRun, NIDWARNINGRun, NIDINFORun, hc]

/-- C4: each emptiness predicate is a total Boolean function that returns true
exactly on a non-empty value of its expected shape — hence false on nil, false
on every wrong-shaped value, false on the empty shape, true otherwise; being a
total Lean function it cannot fail on any input. -/
theorem emptiness_predicates_characterized (v : ObjCValue) :
    (NIIsArrayWithObjects v = true ↔ ∃ es, v = ObjCValue.array es ∧ 0 < es.length)
    ∧ (NIIsSetWithObjects v = true ↔ ∃ es, v = ObjCValue.nsset es ∧ 0 < es.length)
    ∧ (NIIsStringWithAnyText v = true ↔ ∃ s, v = ObjCValue.string s ∧ 0 < s.length)
    ∧ NIIsArrayWithObjects ObjCValue.nilV = false
    ∧ NIIsSetWithObjects ObjCValue.nilV = false
    ∧ NIIsStringWithAnyText ObjCValue.nilV = false
    ∧ NIIsArrayWithObjects (ObjCValue.array []) = false
    ∧ NIIsSetWithObjects (ObjCValue.nsset []) = false
    ∧ NIIsStringWithAnyText (ObjCValue.string "") = false := by
  cases v <;>
    simp [NIIsArrayWithObjects, NIIsSetWithObjects, NIIsStringWithAnyText]

/-- C5: the non-retaining factories yield containers whose insertions leave
every retain count unchanged, so after the sole external owner of an inserted
element releases it, the element's retain count is zero (it is destroyed — the
container did not prevent that) while its entry is still present in the
container. -/
theorem nonretaining_containers_do_not_extend_lifetime (h : Heap) (o : ObjId)
    (k : String) (hsole : h.retainCount o = 1) :
    (NICreateNonRetainingArray.addObject h o).2 = h
    ∧ (NICreateNonRetainingSet.addObject h o).2 = h
    ∧ (NICreateNonRetainingDictionary.setObjectForKey h o k).2 = h
    ∧ o ∈ (NICreateNonRetainingArray.addObject h o).1.elems
    ∧ o ∈ (NICreateNonRetainingSet.addObject h o).1.elems
    ∧ (k, o) ∈ (NICreateNonRetainingDictionary.setObjectForKey h o k).1.entries
    ∧ h.alive o = true
    ∧ (h.release o).retainCount o = 0
    ∧ (h.release o).alive o = false := by
  refine ⟨rfl, rfl, rfl, ?_, ?_, ?_, ?_, ?_, ?_⟩ <;>
    simp [NICreateNonRetainingArray, NICreateNonRetainingSet,
      NICreateNonRetainingDictionary, ModelArray.addObject, ModelSet.addObject,
      ModelDictionary.setObjectForKey, Heap.alive, Heap.release, hsole]

/-- Witness for C5: a heap holding one owning reference to object 0, inserted
into all three non-retaining containers. -/
theorem nonretaining_containers_witness :
    (Heap.mk fun _ => 1).retainCount 0 = 1
    ∧ ((NICreateNonRetainingArray.addObject (Heap.mk fun _ => 1) 0).2
        = (Heap.mk fun _ => 1)
      ∧ (NICreateNonRetainingSet.addObject (Heap.mk fun _ => 1) 0).2
        = (Heap.mk fun _ => 1)
      ∧ (NICreateNonRetainingDictionary.setObjectForKey (Heap.mk fun _ => 1) 0
          "delegate").2 = (Heap.mk fun _ => 1)
      ∧ 0 ∈ (NICreateNonRetainingArray.addObject (Heap.mk fun _ => 1) 0).1.elems
      ∧ 0 ∈ (NICreateNonRetainingSet.addObject (Heap.mk fun _ => 1) 0).1.elems
      ∧ ("delegate", 0) ∈ (NICreateNonRetainingDictionary.setObjectForKey
          (Heap.mk fun _ => 1) 0 "delegate").1.entries
      ∧ (Heap.mk fun _ => 1).alive 0 = true
      ∧ ((Heap.mk fun _ => 1).release 0).retainCount 0 = 0
      ∧ ((Heap.mk fun _ => 1).release 0).alive 0 = false) :=
  ⟨rfl, nonretaining_containers_do_not_extend_lifetime (Heap.mk fun _ => 1) 0
    "delegate" rfl⟩

/-- C7: the process-wide log threshold starts at the Warning rank (3) and any
caller may read it and overwrite it with any integer at any time. -/
theorem max_log_level_default_and_mutable (s : LogState) (v : Int) :
    initialLogState.NIMaxLogLevel = 3
    ∧ initialLogState.NIMaxLogLevel = NILOGLEVEL_WARNING
    ∧ readMaxLogLevel initialLogState = NILOGLEVEL_WARNING
    ∧ readMaxLogLevel (writeMaxLogLevel s v) = v := by
  refine ⟨rfl, rfl, rfl, rfl⟩

/-- C8: the path builders return the pure concatenation of the base path and
the relative path with exactly one separator at the join, whether or not the
relative path starts with a separator; composing "/app" with "img/x.png"
yields "/app/img/x.png". -/
theorem path_builders_concatenate (base rel : String)
    (hbase : hasTrailingSlash base = false) :
    NIPathForBundleResource base rel
        = (if hasLeadingSlash rel then base ++ rel else base ++ "/" ++ rel)
    ∧ NIPathForDocumentsResource base rel
        = (if hasLeadingSlash rel then base ++ rel else base ++ "/" ++ rel)
    ∧ NIPathForBundleResource "/app" "img/x.png" = "/app/img/x.png"
    ∧ NIPathForBundleResource "/app" "/img/x.png" = "/app/img/x.png"
    ∧ NIPathForDocumentsResource "/docs" "img/x.png" = "/docs/img/x.png"
    ∧ NIPathForDocumentsResource "/docs" "/img/x.png" = "/docs/img/x.png" := by
  refine ⟨?_, ?_, by decide, by decide, by decide, by decide⟩ <;>
    simp [NIPathForBundleResource, NIPathForDocumentsResource,
      appendPathComponent, hbase]

/-- Witness for C8 at base "/app" and relative path "img/x.png". -/
theorem path_builders_concatenate_witness :
    hasTrailingSlash "/app" = false
    ∧ (NIPathForBundleResource "/app" "img/x.png"
        = (if hasLeadingSlash "img/x.png" then "/app" ++ "img/x.png"
            else "/app" ++ "/" ++ "img/x.png")
      ∧ NIPathForDocumentsResource "/app" "img/x.png"
        = (if hasLeadingSlash "img/x.png" then "/app" ++ "img/x.png"
            else "/app" ++ "/" ++ "img/x.png")
      ∧ NIPathForBundleResource "/app" "img/x.png" = "/app/img/x.png"
      ∧ NIPathForBundleResource "/app" "/img/x.png" = "/app/img/x.png"
      ∧ NIPathForDocumentsResource "/docs" "img/x.png" = "/docs/img/x.png"
      ∧ NIPathForDocumentsResource "/docs" "/img/x.png" = "/docs/img/x.png") :=
  ⟨by decide, path_builders_concatenate "/app" "img/x.png" (by decide)⟩

/-- C9: the code cannot emit the enclosing method's name.  NimbusCore.h line
111 interpolates the identifier `__PRENIY_FUNCTION__`, which the compiler does
not predefine (it is a corruption of `__PRETTY_FUNCTION__`), so at a concrete
call site inside `-[NIExample doSomething]` the debug-build NIDPRINTMETHODNAME
invocation's message is the unresolved spelling, not the method's name. -/
theorem printmethodname_message_is_not_method_name :
    compilerFunctionIdent ⟨"-[NIExample doSomething]", 42⟩ NIDPRINTFunctionIdent
        = none
    ∧ NIDPRINTFunctionIdent ≠ "__PRETTY_FUNCTION__"
    ∧ (NIDPRINTMETHODNAMERun true ⟨"-[NIExample doSomething]", 42⟩).output
        = [NIDPRINTLine ⟨"-[NIExample doSomething]", 42⟩ "__PRENIY_FUNCTION__"]
    ∧ (NIDPRINTMETHODNAMERun true ⟨"-[NIExample doSomething]", 42⟩).output
        ≠ [NIDPRINTLine ⟨"-[NIExample doSomething]", 42⟩ "-[NIExample doSomething]"] := by
  refine ⟨by decide, by decide, by decide, by decide⟩

end NimbusCore
